import Mathlib

/-!
Verification development for the SilKit CAN bridge (`bridge.py`).

The bridge relays CAN frames between TCP clients and a SIL-Kit virtual bus.
We shallowly embed the relevant parts of `SilKitBridge`:

* `get_dlc_size` — the DLC-to-payload-size table (`bridge.py:405-423`);
* `encode_length` — the payload-length-to-DLC computation of the structured
  (JSON) decode path (`bridge.py:296-319`);
* the compact (thermal, raw binary) branch of `handle_client`
  (`bridge.py:195-254`), modelled as a step function over the bytes
  currently available on the connection;
* the structured (JSON) branch of `handle_client` (`bridge.py:255-344`),
  modelled over an already-parsed message record;
* `handle_can_message` (`bridge.py:354-403`), the bus-to-TCP fan-out.

Machine integers are modelled as `Nat` with explicit `% 2^w` where the
ctypes fields (`c_uint32`, `c_uint8`) could truncate.  asyncio's
`reader.read(n)` is modelled by its documented semantics: on a non-empty
buffer it returns `min n buffered` bytes; on an empty buffer it suspends.
-/

namespace ACBridge

/-- `SilKit_ByteVector` (`bridge.py:19-23`): a data pointer plus a size.
`data = none` models a NULL pointer; `some buf` models a pointer to a
buffer whose bytes are `buf` (reads use `getD` with default 0). -/
structure ByteVec where
  data : Option (List Nat)
  size : Nat
deriving DecidableEq, Repr

/-- `CanFrame` (`bridge.py:25-35`), minus the opaque `structHeader`. -/
structure CanFrame where
  id : Nat
  flags : Nat
  dlc : Nat
  sdt : Nat
  vcid : Nat
  af : Nat
  data : ByteVec
deriving DecidableEq, Repr

/-- `SilKitBridge.get_dlc_size` (`bridge.py:405-423`): convert a DLC code
to the actual CAN FD data size. -/
def get_dlc_size (dlc : Nat) : Nat :=
  if dlc ≤ 8 then dlc
  else if dlc = 9 then 12
  else if dlc = 10 then 16
  else if dlc = 11 then 20
  else if dlc = 12 then 24
  else if dlc = 13 then 32
  else if dlc = 14 then 48
  else if dlc = 15 then 64
  else 0

/-- The DLC computation of the structured decode path
(`bridge.py:296-319`): payload length to DLC code, rounding up to the
next CAN FD bucket.  (In the source this is the `if data_len <= 8 ... else
frame.dlc = 15` chain; extracted here as the spec's `encode_length`.) -/
def encode_length (data_len : Nat) : Nat :=
  if data_len ≤ 8 then data_len
  else if data_len ≤ 12 then 9
  else if data_len ≤ 16 then 10
  else if data_len ≤ 20 then 11
  else if data_len ≤ 24 then 12
  else if data_len ≤ 32 then 13
  else if data_len ≤ 48 then 14
  else 15

/-- The representable payload-size buckets: the image of `get_dlc_size`
on the DLC codes 0–15. -/
def dlcBuckets : List Nat := [0, 1, 2, 3, 4, 5, 6, 7, 8, 12, 16, 20, 24, 32, 48, 64]

/-- The compact wire layout `[4-byte big-endian id][1-byte length][payload]`.
This is exactly the `raw_frame` layout built by `handle_can_message`
(`bridge.py:371-381`) and the layout the thermal branch of `handle_client`
parses (`bridge.py:196-215`); the length byte is a single byte. -/
def compactEncode (cid : Nat) (payload : List Nat) : List Nat :=
  [cid / 16777216 % 256, cid / 65536 % 256, cid / 256 % 256, cid % 256,
   payload.length % 256] ++ payload

/-- Outcome of one iteration of the thermal (compact, raw binary) branch of
`handle_client` (`bridge.py:195-254`) on the bytes currently buffered:
`waiting c` — a read suspended with `c` bytes of the current frame already
consumed; `closed` — a short read made the loop `break` and the connection
close; `forwarded f c` — the frame `f` was built and passed to
`SilKit_CanController_SendFrame`, consuming `c` bytes. -/
inductive CompactStep where
  | waiting (consumedSoFar : Nat)
  | closed
  | forwarded (frame : CanFrame) (consumed : Nat)
deriving DecidableEq, Repr

/-- One iteration of the thermal branch of `handle_client`
(`bridge.py:195-254`) as a function of the byte list currently available
on the connection.  `reader.read n` returns `min n available` bytes when
the buffer is non-empty and suspends when it is empty; `reader.read 0`
returns the empty byte string at once, which the `if not data_bytes`
guard treats as a failed read.  ctypes truncation: `frame.id` is
`c_uint32`, `frame.dlc` is `c_uint8`; `memset` zeroes `sdt`, `vcid`, `af`. -/
def handle_client_compact_step : List Nat → CompactStep
  | [] => .waiting 0
  | b0 :: b1 :: b2 :: b3 :: b4 :: rest =>
    let can_id := b0 * 16777216 + b1 * 65536 + b2 * 256 + b3
    let data_len := b4
    if data_len = 0 then .closed
    else if rest = [] then .waiting 5
    else if rest.length < data_len then .closed
    else
      .forwarded
        { id := can_id % 4294967296, flags := 0, dlc := data_len % 256,
          sdt := 0, vcid := 0, af := 0,
          data := { data := some (rest.take data_len), size := data_len } }
        (5 + data_len)
  | _ => .closed

/-- C1: for every payload length `n` in `0..=64`,
`get_dlc_size (encode_length n)` is at least `n`, is a representable
bucket, is the smallest bucket `≥ n`, and for `n ≤ 8` equals `n` exactly. -/
theorem length_round_trip (n : Nat) (h : n ≤ 64) :
    n ≤ get_dlc_size (encode_length n) ∧
    get_dlc_size (encode_length n) ∈ dlcBuckets ∧
    (∀ b ∈ dlcBuckets, n ≤ b → get_dlc_size (encode_length n) ≤ b) ∧
    (n ≤ 8 → get_dlc_size (encode_length n) = n) := by
  have key : ∀ m : Nat, m < 65 →
      m ≤ get_dlc_size (encode_length m) ∧
      get_dlc_size (encode_length m) ∈ dlcBuckets ∧
      (∀ b ∈ dlcBuckets, m ≤ b → get_dlc_size (encode_length m) ≤ b) ∧
      (m ≤ 8 → get_dlc_size (encode_length m) = m) := by decide
  exact key n (Nat.lt_succ_of_le h)

/-- Witness for C1 at `n = 9`: the round trip gives 12, the smallest
bucket at least 9. -/
theorem length_round_trip_witness :
    (9 : Nat) ≤ 64 ∧
    (9 ≤ get_dlc_size (encode_length 9) ∧
     get_dlc_size (encode_length 9) ∈ dlcBuckets ∧
     (∀ b ∈ dlcBuckets, 9 ≤ b → get_dlc_size (encode_length 9) ≤ b) ∧
     (9 ≤ 8 → get_dlc_size (encode_length 9) = 9)) :=
  ⟨by decide, length_round_trip 9 (by decide)⟩

/-- A parsed structured (JSON) message with the fields the JSON branch of
`handle_client` reads: `type`, `id`, and `data` (defaulting to `[]` via
`msg.get('data', [])`); models the `json.loads` output of a well-formed
record (`bridge.py:270-291`). -/
structure StructuredMsg where
  type : String
  id : Nat
  data : List Nat
deriving DecidableEq, Repr

/-- Frame assembly of the JSON branch (`bridge.py:277-331`): `memset`
zeroes the struct, then `id` (a `c_uint32` field), `flags`, `sdt`,
`vcid`, `af` are assigned, `dlc` (a `c_uint8` field) comes from the
length chain, and the data buffer and its size are attached. -/
def mkJsonFrame (mid : Nat) (dlc : Nat) (buf : List Nat) (len : Nat) : CanFrame :=
  { id := mid % 4294967296, flags := 0, dlc := dlc % 256, sdt := 0, vcid := 0, af := 0,
    data := { data := some buf, size := len } }

/-- The `data_len` chain of the JSON `'can'` branch (`bridge.py:291-331`):
pick the DLC bucket for `data_len = len(original_data)`; truncation to 64
bytes (with the printed warning, returned here as the `Bool`) happens only
inside the final (`dlc = 15`) branch, guarded by `data_len > 64`. -/
def structuredToFrame (mid : Nat) (mdata : List Nat) : CanFrame × Bool :=
  let original_data := mdata
  let data_len := original_data.length
  if data_len ≤ 8 then (mkJsonFrame mid data_len original_data data_len, false)
  else if data_len ≤ 12 then (mkJsonFrame mid 9 original_data data_len, false)
  else if data_len ≤ 16 then (mkJsonFrame mid 10 original_data data_len, false)
  else if data_len ≤ 20 then (mkJsonFrame mid 11 original_data data_len, false)
  else if data_len ≤ 24 then (mkJsonFrame mid 12 original_data data_len, false)
  else if data_len ≤ 32 then (mkJsonFrame mid 13 original_data data_len, false)
  else if data_len ≤ 48 then (mkJsonFrame mid 14 original_data data_len, false)
  else if data_len > 64 then (mkJsonFrame mid 15 (original_data.take 64) 64, true)
  else (mkJsonFrame mid 15 original_data data_len, false)

/-- Observable outcome of one loop iteration of `handle_client` given the
bus transport's `SendFrame` status `busErr`: the frames passed to
`SendFrame` (one entry per call — the code never retries), whether the
truncation warning was printed, whether a send-failure message was
printed, and whether the `while True` loop keeps running on this
connection. -/
structure IterResult where
  forwardedFrames : List CanFrame
  truncWarning : Bool
  sendFailureReported : Bool
  continues : Bool
deriving DecidableEq, Repr

/-- One iteration of the JSON branch of `handle_client`
(`bridge.py:269-344`) on a parsed message: a `'can'`-typed message builds
a frame and calls `SendFrame` exactly once (the status only selects which
message is printed, `bridge.py:341-344`); any other type tag falls
through the `if msg['type'] == 'can'` with no action; the loop continues
in both cases. -/
def handle_client_json_step (msg : StructuredMsg) (busErr : Int) : IterResult :=
  if msg.type = "can" then
    { forwardedFrames := [(structuredToFrame msg.id msg.data).1],
      truncWarning := (structuredToFrame msg.id msg.data).2,
      sendFailureReported := busErr != 0, continues := true }
  else
    { forwardedFrames := [], truncWarning := false,
      sendFailureReported := false, continues := true }

/-- The thermal branch of `handle_client` joined with its send portion
(`bridge.py:244-254`): a decoded frame is passed to `SendFrame` exactly
once, a failure status is printed (`bridge.py:251-252`), and the loop
continues; a short read closes the connection. -/
def handle_client_compact_iter (buf : List Nat) (busErr : Int) : IterResult :=
  match handle_client_compact_step buf with
  | .forwarded frame _ =>
      { forwardedFrames := [frame], truncWarning := false,
        sendFailureReported := busErr != 0, continues := true }
  | .waiting _ =>
      { forwardedFrames := [], truncWarning := false,
        sendFailureReported := false, continues := true }
  | .closed =>
      { forwardedFrames := [], truncWarning := false,
        sendFailureReported := false, continues := false }

/-- A client registered in `self.clients` as the fan-out loop sees it: an
identifier standing for the `writer` handle, and whether `writer.write`
succeeds for it (a failed write raises, landing in the per-client
`except`, `bridge.py:398-399`). -/
structure Client where
  cid : Nat
  /-- whether the peer address matches `192.0.2.*` — used by the loop only
  to decide which DEBUG line to print (`bridge.py:387-393`). -/
  thermalPeer : Bool
  writeOk : Bool
deriving DecidableEq, Repr

/-- `data_size` of `handle_can_message` (`bridge.py:357`):
`min(get_dlc_size(frame.dlc), frame.data.size)` when the data pointer is
non-NULL, else 0. -/
def fanout_data_size (frame : CanFrame) : Nat :=
  if frame.data.data.isSome then min (get_dlc_size frame.dlc) frame.data.size else 0

/-- The `raw_frame` bytes built by `handle_can_message`
(`bridge.py:361-381`): 4-byte big-endian id, one length byte holding
`data_size`, then the `data_size` bytes read from the frame's `c_uint8`
buffer (hence the `% 256` on each read). -/
def handle_can_message_raw (frame : CanFrame) : List Nat :=
  compactEncode frame.id
    ((List.range (fanout_data_size frame)).map
      fun i => (frame.data.data.getD []).getD i 0 % 256)

/-- The fan-out loop of `handle_can_message` (`bridge.py:384-401`): write
`raw` to every registered client in turn; a client whose write raises
only gets an error printed, and the loop moves on.  Returns the ordered
list of `(client id, bytes)` writes that succeeded, and `client_count`. -/
def fanout_writes (raw : List Nat) : List Client → List (Nat × List Nat) × Nat
  | [] => ([], 0)
  | c :: rest =>
    if c.writeOk then
      ((c.cid, raw) :: (fanout_writes raw rest).1, (fanout_writes raw rest).2 + 1)
    else fanout_writes raw rest

/-- `handle_can_message` (`bridge.py:354-403`): build `raw_frame` once and
fan it out to every registered client.  The function never mutates
`self.clients`: no client is closed or removed on a write failure, so the
resulting registry is returned unchanged. -/
def handle_can_message (frame : CanFrame) (clients : List Client) :
    (List (Nat × List Nat) × Nat) × List Client :=
  (fanout_writes (handle_can_message_raw frame) clients, clients)

/-- Taking `j + 5` elements of a list with five explicit heads keeps the
heads and takes `j` from the tail. -/
theorem take_add_five (x0 x1 x2 x3 x4 : Nat) (l : List Nat) (j : Nat) :
    List.take (j + 5) (x0 :: x1 :: x2 :: x3 :: x4 :: l) =
      x0 :: x1 :: x2 :: x3 :: x4 :: List.take j l := rfl

/-- C2 counterexample: with only the first byte of the encoded compact
frame `compactEncode 1 [7] = [0,0,0,1,1,7]` buffered (a strict prefix
shorter than the 5-byte header), the code closes the connection instead
of returning `Incomplete`/waiting for more input. -/
theorem compact_partial_close_counterexample :
    handle_client_compact_step ((compactEncode 1 [7]).take 1) = CompactStep.closed := by
  decide

/-- C2 (amended): feeding an encoded compact frame incrementally, the code
waits only on the empty buffer (consuming nothing) and on the exact 5-byte
header (which it has then already consumed); every other nonempty strict
prefix makes it close the connection; once all bytes are available it
forwards exactly the correct frame, consuming the whole frame. -/
theorem compact_incremental_feed (cid : Nat) (payload : List Nat)
    (hid : cid < 4294967296) (hlen : payload.length ≤ 255)
    (hpos : 1 ≤ payload.length) :
    handle_client_compact_step ((compactEncode cid payload).take 0) =
      CompactStep.waiting 0 ∧
    (∀ k, 1 ≤ k → k < 5 →
      handle_client_compact_step ((compactEncode cid payload).take k) =
        CompactStep.closed) ∧
    handle_client_compact_step ((compactEncode cid payload).take 5) =
      CompactStep.waiting 5 ∧
    (∀ k, 5 < k → k < (compactEncode cid payload).length →
      handle_client_compact_step ((compactEncode cid payload).take k) =
        CompactStep.closed) ∧
    handle_client_compact_step (compactEncode cid payload) =
      CompactStep.forwarded
        { id := cid, flags := 0, dlc := payload.length,
          sdt := 0, vcid := 0, af := 0,
          data := { data := some payload, size := payload.length } }
        (5 + payload.length) := by
  have hL : payload.length % 256 = payload.length := Nat.mod_eq_of_lt (by omega)
  have hw : compactEncode cid payload =
      cid / 16777216 % 256 :: cid / 65536 % 256 :: cid / 256 % 256 :: cid % 256 ::
        payload.length :: payload := by
    simp [compactEncode, hL]
  refine ⟨rfl, ?_, ?_, ?_, ?_⟩
  · intro k h1 h5
    rw [hw]
    interval_cases k <;> rfl
  · rw [hw]
    have h5 : (5 : Nat) = 0 + 5 := by omega
    rw [h5, take_add_five]
    simp only [List.take_zero, handle_client_compact_step]
    rw [if_neg (by omega)]
    simp
  · intro k h5 hk
    rw [hw] at hk ⊢
    simp only [List.length_cons] at hk
    obtain ⟨j, rfl, hj1⟩ : ∃ j, k = j + 5 ∧ 1 ≤ j := ⟨k - 5, by omega, by omega⟩
    have hjlt : j < payload.length := by omega
    rw [take_add_five]
    simp only [handle_client_compact_step]
    rw [if_neg (by omega)]
    have hne : ¬(payload.take j = []) := by
      intro h
      have hlt := congrArg List.length h
      rw [List.length_take, List.length_nil] at hlt
      omega
    rw [if_neg hne]
    have hlt : (payload.take j).length < payload.length := by
      rw [List.length_take]
      omega
    rw [if_pos hlt]
  · rw [hw]
    simp only [handle_client_compact_step]
    rw [if_neg (by omega)]
    have hne : ¬(payload = []) := by
      intro h
      rw [h] at hpos
      simp at hpos
    rw [if_neg hne, if_neg (by omega)]
    have hself : payload.take payload.length = payload := List.take_length payload
    rw [hself]
    have hidb : (cid / 16777216 % 256 * 16777216 + cid / 65536 % 256 * 65536 +
        cid / 256 % 256 * 256 + cid % 256) % 4294967296 = cid := by omega
    rw [hidb, hL]

/-- Witness for C2 (amended) at `cid = 1`, `payload = [7]`. -/
theorem compact_incremental_feed_witness :
    ((1 : Nat) < 4294967296 ∧ ([7] : List Nat).length ≤ 255 ∧ 1 ≤ ([7] : List Nat).length) ∧
    (handle_client_compact_step ((compactEncode 1 [7]).take 0) = CompactStep.waiting 0 ∧
     (∀ k, 1 ≤ k → k < 5 →
       handle_client_compact_step ((compactEncode 1 [7]).take k) = CompactStep.closed) ∧
     handle_client_compact_step ((compactEncode 1 [7]).take 5) = CompactStep.waiting 5 ∧
     (∀ k, 5 < k → k < (compactEncode 1 [7]).length →
       handle_client_compact_step ((compactEncode 1 [7]).take k) = CompactStep.closed) ∧
     handle_client_compact_step (compactEncode 1 [7]) =
       CompactStep.forwarded
         { id := 1, flags := 0, dlc := ([7] : List Nat).length,
           sdt := 0, vcid := 0, af := 0,
           data := { data := some [7], size := ([7] : List Nat).length } }
         (5 + ([7] : List Nat).length)) :=
  ⟨⟨by decide, by decide, by decide⟩,
   compact_incremental_feed 1 [7] (by decide) (by decide) (by decide)⟩

/-- C3 counterexample: a compact input whose length byte is 65 (greater
than 64), with 65 payload bytes buffered, is decoded and forwarded to the
bus with `dlc = 65` — not rejected as invalid, and the connection is not
closed. -/
theorem compact_length_over_64_forwarded_counterexample :
    handle_client_compact_step ([0, 0, 0, 1, 65] ++ List.replicate 65 7) =
      CompactStep.forwarded
        { id := 1, flags := 0, dlc := 65, sdt := 0, vcid := 0, af := 0,
          data := { data := some (List.replicate 65 7), size := 65 } } 70 := by
  decide

/-- C3 (amended): the compact decoder never validates the length byte
against 64: for any header whose fifth byte `L` exceeds 64 (up to the
byte maximum 255), once `L` payload bytes are buffered the frame is
forwarded to the bus with `dlc = L`, and the connection stays open. -/
theorem compact_no_length_check (b0 b1 b2 b3 L : Nat) (payload : List Nat)
    (h64 : 64 < L) (h255 : L ≤ 255) (hlen : payload.length = L) :
    handle_client_compact_step (b0 :: b1 :: b2 :: b3 :: L :: payload) =
      CompactStep.forwarded
        { id := (b0 * 16777216 + b1 * 65536 + b2 * 256 + b3) % 4294967296,
          flags := 0, dlc := L, sdt := 0, vcid := 0, af := 0,
          data := { data := some payload, size := L } } (5 + L) := by
  simp only [handle_client_compact_step]
  rw [if_neg (by omega)]
  have hne : ¬(payload = []) := by
    intro h
    rw [h] at hlen
    simp at hlen
    omega
  rw [if_neg hne, if_neg (by omega)]
  rw [Nat.mod_eq_of_lt (show L < 256 by omega), ← hlen, List.take_length]

/-- Witness for C3 (amended) at length byte 65 with 65 buffered payload
bytes. -/
theorem compact_no_length_check_witness :
    ((64 : Nat) < 65 ∧ (65 : Nat) ≤ 255 ∧ (List.replicate 65 (7 : Nat)).length = 65) ∧
    handle_client_compact_step (0 :: 0 :: 0 :: 2 :: 65 :: List.replicate 65 7) =
      CompactStep.forwarded
        { id := (0 * 16777216 + 0 * 65536 + 0 * 256 + 2) % 4294967296,
          flags := 0, dlc := 65, sdt := 0, vcid := 0, af := 0,
          data := { data := some (List.replicate 65 7), size := 65 } } (5 + 65) :=
  ⟨⟨by decide, by decide, by decide⟩,
   compact_no_length_check 0 0 0 2 65 (List.replicate 65 7)
     (by decide) (by decide) (by decide)⟩

/-- Every DLC code maps to a payload size of at most 64 bytes. -/
theorem get_dlc_size_le_64 (dlc : Nat) : get_dlc_size dlc ≤ 64 := by
  unfold get_dlc_size
  repeat' split
  all_goals omega

/-- The fan-out `data_size` never exceeds 64. -/
theorem fanout_data_size_le_64 (frame : CanFrame) : fanout_data_size frame ≤ 64 := by
  unfold fanout_data_size
  split
  · exact le_trans (Nat.min_le_left _ _) (get_dlc_size_le_64 _)
  · omega

/-- When every client's write succeeds, the fan-out loop writes the same
bytes to each of them, in registry order, and counts them all. -/
theorem fanout_writes_all_ok (raw : List Nat) (l : List Client)
    (hok : ∀ c ∈ l, c.writeOk = true) :
    fanout_writes raw l = (l.map fun c => (c.cid, raw), l.length) := by
  induction l with
  | nil => rfl
  | cons c rest ih =>
    have hc : c.writeOk = true := hok c (List.mem_cons_self c rest)
    have ihr := ih fun x hx => hok x (List.mem_cons_of_mem c hx)
    simp [fanout_writes, hc, ihr]

/-- The fan-out loop distributes over concatenation of the registry. -/
theorem fanout_writes_append (raw : List Nat) (l1 l2 : List Client) :
    (fanout_writes raw (l1 ++ l2)).1 =
      (fanout_writes raw l1).1 ++ (fanout_writes raw l2).1 := by
  induction l1 with
  | nil => simp [fanout_writes]
  | cons c rest ih =>
    simp only [List.cons_append, fanout_writes]
    split <;> simp [ih]

/-- C4: a bus-received frame is compact-encoded once and those identical
bytes are written to every registered client, regardless of the client's
protocol variant; for the frame with id `0x999` and payload `[1,2,3]`
the bytes are exactly `[0x00,0x00,0x09,0x99,0x03,0x01,0x02,0x03]`. -/
theorem fanout_same_bytes_to_all (frame : CanFrame) (clients : List Client)
    (hok : ∀ c ∈ clients, c.writeOk = true) :
    (handle_can_message frame clients).1.1 =
      clients.map (fun c => (c.cid, handle_can_message_raw frame)) ∧
    handle_can_message_raw
        { id := 0x999, flags := 0, dlc := 3, sdt := 0, vcid := 0, af := 0,
          data := { data := some [1, 2, 3], size := 3 } } =
      [0x00, 0x00, 0x09, 0x99, 0x03, 0x01, 0x02, 0x03] := by
  refine ⟨?_, by decide⟩
  show (fanout_writes (handle_can_message_raw frame) clients).1 = _
  rw [fanout_writes_all_ok _ _ hok]

/-- Witness for C4: one compact-variant and one structured-variant client,
both healthy, both receive the same scenario bytes. -/
theorem fanout_same_bytes_to_all_witness :
    (∀ c ∈ [Client.mk 0 true true, Client.mk 1 false true], c.writeOk = true) ∧
    ((handle_can_message
        { id := 0x999, flags := 0, dlc := 3, sdt := 0, vcid := 0, af := 0,
          data := { data := some [1, 2, 3], size := 3 } }
        [Client.mk 0 true true, Client.mk 1 false true]).1.1 =
      [Client.mk 0 true true, Client.mk 1 false true].map
        (fun c => (c.cid, handle_can_message_raw
          { id := 0x999, flags := 0, dlc := 3, sdt := 0, vcid := 0, af := 0,
            data := { data := some [1, 2, 3], size := 3 } })) ∧
     handle_can_message_raw
        { id := 0x999, flags := 0, dlc := 3, sdt := 0, vcid := 0, af := 0,
          data := { data := some [1, 2, 3], size := 3 } } =
      [0x00, 0x00, 0x09, 0x99, 0x03, 0x01, 0x02, 0x03]) :=
  ⟨by decide,
   fanout_same_bytes_to_all _ [Client.mk 0 true true, Client.mk 1 false true] (by decide)⟩

/-- C5 counterexample: after a fan-out in which client 0's write fails,
client 0 is still in the registry — the code does not close or remove it,
contradicting the claim that the failing client is torn down. -/
theorem fanout_failed_client_still_registered_counterexample :
    (handle_can_message
        { id := 0x999, flags := 0, dlc := 3, sdt := 0, vcid := 0, af := 0,
          data := { data := some [1, 2, 3], size := 3 } }
        [Client.mk 0 false false, Client.mk 1 false true]).2 =
      [Client.mk 0 false false, Client.mk 1 false true] ∧
    Client.mk 0 false false ∈
      (handle_can_message
        { id := 0x999, flags := 0, dlc := 3, sdt := 0, vcid := 0, af := 0,
          data := { data := some [1, 2, 3], size := 3 } }
        [Client.mk 0 false false, Client.mk 1 false true]).2 := by
  decide

/-- C5 (amended): a fan-out write failure is isolated — every other
registered client still receives the frame bytes and the loop is not
aborted — but the failing client is not closed: the registry comes out
unchanged and still contains it. -/
theorem fanout_write_failure_isolated (frame : CanFrame) (pre post : List Client)
    (bad : Client) (hbad : bad.writeOk = false)
    (hok : ∀ c ∈ pre ++ post, c.writeOk = true) :
    (handle_can_message frame (pre ++ bad :: post)).1.1 =
      (pre ++ post).map (fun c => (c.cid, handle_can_message_raw frame)) ∧
    (handle_can_message frame (pre ++ bad :: post)).2 = pre ++ bad :: post ∧
    bad ∈ (handle_can_message frame (pre ++ bad :: post)).2 := by
  have hpre : ∀ c ∈ pre, c.writeOk = true :=
    fun c hc => hok c (List.mem_append_left _ hc)
  have hpost : ∀ c ∈ post, c.writeOk = true :=
    fun c hc => hok c (List.mem_append_right _ hc)
  refine ⟨?_, rfl, by simp [handle_can_message]⟩
  show (fanout_writes (handle_can_message_raw frame) (pre ++ bad :: post)).1 = _
  have hskip : fanout_writes (handle_can_message_raw frame) (bad :: post) =
      fanout_writes (handle_can_message_raw frame) post := by
    simp [fanout_writes, hbad]
  rw [fanout_writes_append, hskip, fanout_writes_all_ok _ _ hpre,
    fanout_writes_all_ok _ _ hpost]
  simp

/-- Witness for C5 (amended): clients 1 and 2 still receive the bytes
while failing client 0 stays registered. -/
theorem fanout_write_failure_isolated_witness :
    ((Client.mk 0 false false).writeOk = false ∧
     (∀ c ∈ [Client.mk 1 false true] ++ [Client.mk 2 true true], c.writeOk = true)) ∧
    ((handle_can_message
        { id := 0x123, flags := 0, dlc := 2, sdt := 0, vcid := 0, af := 0,
          data := { data := some [10, 20], size := 2 } }
        ([Client.mk 1 false true] ++ Client.mk 0 false false :: [Client.mk 2 true true])).1.1 =
      ([Client.mk 1 false true] ++ [Client.mk 2 true true]).map
        (fun c => (c.cid, handle_can_message_raw
          { id := 0x123, flags := 0, dlc := 2, sdt := 0, vcid := 0, af := 0,
            data := { data := some [10, 20], size := 2 } })) ∧
     (handle_can_message
        { id := 0x123, flags := 0, dlc := 2, sdt := 0, vcid := 0, af := 0,
          data := { data := some [10, 20], size := 2 } }
        ([Client.mk 1 false true] ++ Client.mk 0 false false :: [Client.mk 2 true true])).2 =
      [Client.mk 1 false true] ++ Client.mk 0 false false :: [Client.mk 2 true true] ∧
     Client.mk 0 false false ∈
      (handle_can_message
        { id := 0x123, flags := 0, dlc := 2, sdt := 0, vcid := 0, af := 0,
          data := { data := some [10, 20], size := 2 } }
        ([Client.mk 1 false true] ++ Client.mk 0 false false :: [Client.mk 2 true true])).2) :=
  ⟨⟨by decide, by decide⟩,
   fanout_write_failure_isolated _ [Client.mk 1 false true] [Client.mk 2 true true]
     (Client.mk 0 false false) (by decide) (by decide)⟩

/-- C10: the fan-out payload length is `min(get_dlc_size dlc, data.size)`
when the data pointer is present and 0 otherwise, and the length byte of
the emitted compact frame always equals the number of payload bytes
written after it, even for a `dlc` inconsistent with the buffer size. -/
theorem fanout_length_byte_consistent (frame : CanFrame) :
    fanout_data_size frame =
      (if frame.data.data.isSome then min (get_dlc_size frame.dlc) frame.data.size
       else 0) ∧
    (handle_can_message_raw frame).length = 5 + fanout_data_size frame ∧
    (handle_can_message_raw frame).getD 4 0 = fanout_data_size frame := by
  refine ⟨rfl, ?_, ?_⟩
  · simp [handle_can_message_raw, compactEncode]
    omega
  · have h64 := fanout_data_size_le_64 frame
    simp [handle_can_message_raw, compactEncode]
    omega

/-- On a `data` list longer than 64 entries the length chain lands in its
final branch: `dlc = 15`, payload truncated to 64 bytes, warning printed. -/
theorem structuredToFrame_long (mid : Nat) (mdata : List Nat)
    (h : 64 < mdata.length) :
    structuredToFrame mid mdata = (mkJsonFrame mid 15 (mdata.take 64) 64, true) := by
  have h8 : ¬(mdata.length ≤ 8) := by omega
  have h12 : ¬(mdata.length ≤ 12) := by omega
  have h16 : ¬(mdata.length ≤ 16) := by omega
  have h20 : ¬(mdata.length ≤ 20) := by omega
  have h24 : ¬(mdata.length ≤ 24) := by omega
  have h32 : ¬(mdata.length ≤ 32) := by omega
  have h48 : ¬(mdata.length ≤ 48) := by omega
  simp [structuredToFrame, h8, h12, h16, h20, h24, h32, h48, h]

/-- C6: a structured `'can'` message with more than 64 data entries is
forwarded as a single frame whose payload buffer and declared size are
exactly 64 bytes and whose `dlc` is 15, the truncation warning is
printed, and the connection's loop continues (the error is non-fatal). -/
theorem structured_truncation (msg : StructuredMsg) (busErr : Int)
    (htype : msg.type = "can") (hlen : 64 < msg.data.length) :
    (handle_client_json_step msg busErr).forwardedFrames =
      [mkJsonFrame msg.id 15 (msg.data.take 64) 64] ∧
    (mkJsonFrame msg.id 15 (msg.data.take 64) 64).data.size = 64 ∧
    ((mkJsonFrame msg.id 15 (msg.data.take 64) 64).data.data.getD []).length = 64 ∧
    (mkJsonFrame msg.id 15 (msg.data.take 64) 64).dlc = 15 ∧
    (handle_client_json_step msg busErr).truncWarning = true ∧
    (handle_client_json_step msg busErr).continues = true := by
  have hst := structuredToFrame_long msg.id msg.data hlen
  refine ⟨?_, rfl, ?_, rfl, ?_, ?_⟩
  · simp [handle_client_json_step, htype, hst]
  · simp [mkJsonFrame, List.length_take]
    omega
  · simp [handle_client_json_step, htype, hst]
  · simp [handle_client_json_step, htype]

/-- Witness for C6: a `'can'` message with a 100-element data list. -/
theorem structured_truncation_witness :
    ((StructuredMsg.mk "can" 0x123 (List.replicate 100 5)).type = "can" ∧
     64 < (StructuredMsg.mk "can" 0x123 (List.replicate 100 5)).data.length) ∧
    ((handle_client_json_step (StructuredMsg.mk "can" 0x123 (List.replicate 100 5))
        0).forwardedFrames =
      [mkJsonFrame 0x123 15 ((List.replicate 100 (5 : Nat)).take 64) 64] ∧
     (mkJsonFrame 0x123 15 ((List.replicate 100 (5 : Nat)).take 64) 64).data.size = 64 ∧
     ((mkJsonFrame 0x123 15 ((List.replicate 100 (5 : Nat)).take 64)
        64).data.data.getD []).length = 64 ∧
     (mkJsonFrame 0x123 15 ((List.replicate 100 (5 : Nat)).take 64) 64).dlc = 15 ∧
     (handle_client_json_step (StructuredMsg.mk "can" 0x123 (List.replicate 100 5))
        0).truncWarning = true ∧
     (handle_client_json_step (StructuredMsg.mk "can" 0x123 (List.replicate 100 5))
        0).continues = true) :=
  ⟨⟨rfl, by decide⟩,
   structured_truncation (StructuredMsg.mk "can" 0x123 (List.replicate 100 5)) 0
     rfl (by decide)⟩

/-- C7: a well-formed structured message whose type tag differs from
`'can'` is skipped, not treated as an error: no frame is forwarded to the
bus, nothing is reported, and the loop continues with the next message. -/
theorem structured_skip_non_can (msg : StructuredMsg) (busErr : Int)
    (htype : msg.type ≠ "can") :
    (handle_client_json_step msg busErr).forwardedFrames = [] ∧
    (handle_client_json_step msg busErr).truncWarning = false ∧
    (handle_client_json_step msg busErr).sendFailureReported = false ∧
    (handle_client_json_step msg busErr).continues = true := by
  simp [handle_client_json_step, htype]

/-- Witness for C7: a `'status'`-typed message is skipped. -/
theorem structured_skip_non_can_witness :
    (StructuredMsg.mk "status" 7 [1]).type ≠ "can" ∧
    ((handle_client_json_step (StructuredMsg.mk "status" 7 [1]) 3).forwardedFrames = [] ∧
     (handle_client_json_step (StructuredMsg.mk "status" 7 [1]) 3).truncWarning = false ∧
     (handle_client_json_step (StructuredMsg.mk "status" 7 [1]) 3).sendFailureReported
        = false ∧
     (handle_client_json_step (StructuredMsg.mk "status" 7 [1]) 3).continues = true) :=
  ⟨by decide, structured_skip_non_can (StructuredMsg.mk "status" 7 [1]) 3 (by decide)⟩

/-- C8: a non-zero `SendFrame` status is only reported: on both wire
paths the decoded frame was passed to `SendFrame` exactly once (no
retry), the failure is printed, the connection is not closed, and the
read loop continues. -/
theorem bus_send_failure_nonfatal (msg : StructuredMsg) (buf : List Nat)
    (frame : CanFrame) (consumed : Nat) (busErr : Int)
    (htype : msg.type = "can") (herr : busErr ≠ 0)
    (hbuf : handle_client_compact_step buf = CompactStep.forwarded frame consumed) :
    ((handle_client_json_step msg busErr).forwardedFrames.length = 1 ∧
     (handle_client_json_step msg busErr).sendFailureReported = true ∧
     (handle_client_json_step msg busErr).continues = true) ∧
    ((handle_client_compact_iter buf busErr).forwardedFrames.length = 1 ∧
     (handle_client_compact_iter buf busErr).sendFailureReported = true ∧
     (handle_client_compact_iter buf busErr).continues = true) := by
  constructor
  · simp [handle_client_json_step, htype, herr]
  · simp [handle_client_compact_iter, hbuf, herr]

/-- Witness for C8: a failing `SendFrame` (status 1) on a `'can'` message
and on a fully buffered compact frame. -/
theorem bus_send_failure_nonfatal_witness :
    ((StructuredMsg.mk "can" 1 [2]).type = "can" ∧ (1 : Int) ≠ 0 ∧
     handle_client_compact_step [0, 0, 0, 1, 1, 7] =
       CompactStep.forwarded
         { id := 1, flags := 0, dlc := 1, sdt := 0, vcid := 0, af := 0,
           data := { data := some [7], size := 1 } } 6) ∧
    (((handle_client_json_step (StructuredMsg.mk "can" 1 [2]) 1).forwardedFrames.length
        = 1 ∧
      (handle_client_json_step (StructuredMsg.mk "can" 1 [2]) 1).sendFailureReported
        = true ∧
      (handle_client_json_step (StructuredMsg.mk "can" 1 [2]) 1).continues = true) ∧
     ((handle_client_compact_iter [0, 0, 0, 1, 1, 7] 1).forwardedFrames.length = 1 ∧
      (handle_client_compact_iter [0, 0, 0, 1, 1, 7] 1).sendFailureReported = true ∧
      (handle_client_compact_iter [0, 0, 0, 1, 1, 7] 1).continues = true)) :=
  ⟨⟨rfl, by decide, by decide⟩,
   bus_send_failure_nonfatal (StructuredMsg.mk "can" 1 [2]) [0, 0, 0, 1, 1, 7]
     { id := 1, flags := 0, dlc := 1, sdt := 0, vcid := 0, af := 0,
       data := { data := some [7], size := 1 } } 6 1 rfl (by decide) (by decide)⟩

/-- Every frame the JSON branch builds has `flags = 0`: each branch of the
length chain goes through `mkJsonFrame`. -/
theorem structuredToFrame_flags (mid : Nat) (mdata : List Nat) :
    (structuredToFrame mid mdata).1.flags = 0 := by
  simp only [structuredToFrame]
  repeat' split
  all_goals rfl

/-- Every frame the thermal branch forwards has `flags = 0`: the decode
step only builds frames with an explicit `flags := 0`. -/
theorem compact_step_forwarded_flags (buf : List Nat) (f : CanFrame) (c : Nat)
    (h : handle_client_compact_step buf = CompactStep.forwarded f c) :
    f.flags = 0 := by
  rcases buf with _ | ⟨b0, _ | ⟨b1, _ | ⟨b2, _ | ⟨b3, _ | ⟨b4, rest⟩⟩⟩⟩⟩
  · exact absurd h (by simp [handle_client_compact_step])
  · exact absurd h (by simp [handle_client_compact_step])
  · exact absurd h (by simp [handle_client_compact_step])
  · exact absurd h (by simp [handle_client_compact_step])
  · exact absurd h (by simp [handle_client_compact_step])
  · simp only [handle_client_compact_step] at h
    split at h
    · exact absurd h (by simp)
    · split at h
      · exact absurd h (by simp)
      · split at h
        · exact absurd h (by simp)
        · rw [CompactStep.forwarded.injEq] at h
          rw [← h.1]

/-- C9: every frame passed to the bus transport's `SendFrame` has
`flags = 0`, on both the compact and the structured inbound paths, for
every wire input: neither wire codec carries a flags field and both
branches assign `frame.flags = 0` after zeroing the struct. -/
theorem forwarded_flags_always_zero (msg : StructuredMsg) (buf : List Nat)
    (busErr : Int) :
    ((handle_client_json_step msg busErr).forwardedFrames.all
      fun f => f.flags == 0) = true ∧
    ((handle_client_compact_iter buf busErr).forwardedFrames.all
      fun f => f.flags == 0) = true := by
  constructor
  · by_cases htype : msg.type = "can"
    · simp [handle_client_json_step, htype, structuredToFrame_flags]
    · simp [handle_client_json_step, htype]
  · rcases hstep : handle_client_compact_step buf with c | _ | ⟨f, c⟩
    · simp [handle_client_compact_iter, hstep]
    · simp [handle_client_compact_iter, hstep]
    · simp [handle_client_compact_iter, hstep,
        compact_step_forwarded_flags buf f c hstep]

end ACBridge
